import Mathlib

/-!
Shallow embedding of `git-run` (`src/main.rs`): a tool that checks the
repository is clean, runs a user command, stages everything, shows a status
preview, asks for confirmation and commits with a message derived from the
command.  Subprocess launches are modelled by an oracle indexed by launch
order; the result of a run records the final outcome, the ordered list of
subprocess invocations attempted, and whether the confirmation prompt was
consulted.
-/

/-- Bytes of an operating-system string: either valid unicode text or a raw
non-unicode value (mirrors `std::ffi::OsString`). -/
inductive OsStr where
  | text (s : String)
  | bytes (b : List Nat)
deriving DecidableEq

/-- Disposition of one standard stream of a child process (mirrors
`std::process::Stdio`): captured by a pipe, inherited from the parent
terminal, or connected to the null device. -/
inductive ProcStream where
  | piped
  | inheritTty
  | nullDev
deriving DecidableEq

/-- A subprocess invocation: the program, its arguments, and the three
standard-stream dispositions, exactly as configured on a
`std::process::Command` before `.output()` is called. -/
structure Invocation where
  program : OsStr
  args : List OsStr
  stdinCfg : ProcStream
  stdoutCfg : ProcStream
  stderrCfg : ProcStream
deriving DecidableEq

/-- What the operating system answers to one subprocess launch attempt:
either the program cannot be launched at all (`Command::output()` returns
`Err`), or it runs and terminates with an optional exit code (`none` models
termination by a signal) and captured standard-output bytes. -/
inductive SpawnOutcome where
  | launchFailure
  | exited (code : Option Int) (stdout : List Nat)
deriving DecidableEq

/-- The error taxonomy of the tool: the dirty-repository bail (main.rs line
40), the missing `SHELL` bail (line 49), the launch-failure error of `run`
(line 100) naming program and arguments, the exit-status error of `errexit`
(lines 116 and 118) naming program, arguments and the optional status, and
the `cancelled` bail (line 90). -/
inductive RunError where
  | dirtyRepository
  | missingEnvironment
  | subprocessLaunch (program : OsStr) (args : List OsStr)
  | subprocessExit (program : OsStr) (args : List OsStr) (code : Option Int)
  | cancelled
deriving DecidableEq

/-- How a whole run of the program ends: normal success, a fatal `RunError`,
the structured clap usage-error exit (`Args::command().error(..).exit()`,
lines 57-62), or the `unreachable!` panic of line 67. -/
inductive Outcome where
  | success
  | failure (e : RunError)
  | usageExit
  | panicked
deriving DecidableEq

/-- Result of `std::env::var("SHELL")` (main.rs lines 45-51): valid unicode
text, present but not unicode (`VarError::NotUnicode` carrying the raw
value), or absent (`VarError::NotPresent`). -/
inductive EnvVar where
  | ok (s : String)
  | notUnicode (v : OsStr)
  | notPresent
deriving DecidableEq

/-- Result of the confirmation capability `dialoguer::Confirm::interact()`:
an answer, or a failure of the capability itself. -/
inductive ConfirmOutcome where
  | ok (answer : Bool)
  | failure
deriving DecidableEq

/-- The external world a run interacts with: the `SHELL` environment
variable, an oracle giving the outcome of the `idx`-th subprocess launch
attempt of the run, and the behaviour of the confirmation prompt. -/
structure Env where
  shellVar : EnvVar
  spawn : Nat → SpawnOutcome
  confirm : ConfirmOutcome

/-- The parsed command-line arguments (struct `Args`, main.rs lines 12-28).
The clap grammar `num_args(1..)` guarantees `command` is non-empty, but that
invariant is external to this structure. -/
structure Args where
  shell : Bool
  yes : Bool
  command : List String
deriving DecidableEq

/-- What one run of the program did: its final outcome, the ordered list of
subprocess invocations attempted (every call of `run`, i.e. every
`Command::output()`), and whether the confirmation prompt was consulted. -/
structure RunResult where
  outcome : Outcome
  trace : List Invocation
  promptInvoked : Bool
deriving DecidableEq

/-- `git()` (main.rs line 122). -/
def gitProg : OsStr := .text "git"

/-- `git().args(["status", "--porcelain"]).stdout(Stdio::piped())` with the
`output()` defaults for the other two streams (main.rs lines 33-35). -/
def statusPorcelainInv : Invocation :=
  ⟨gitProg, [.text "status", .text "--porcelain"], .nullDev, .piped, .piped⟩

/-- `visible` (main.rs lines 126-131): null stdin, inherited stdout and
stderr. -/
def visibleInv (program : OsStr) (args : List OsStr) : Invocation :=
  ⟨program, args, .nullDev, .inheritTty, .inheritTty⟩

/-- `git().args(["add", "."])` run visibly (main.rs line 70). -/
def addAllInv : Invocation := visibleInv gitProg [.text "add", .text "."]

/-- `git().args(["-c", "color.status=always", "status"])` run visibly
(main.rs lines 71-75). -/
def colorStatusInv : Invocation :=
  visibleInv gitProg [.text "-c", .text "color.status=always", .text "status"]

/-- `git().args(["commit", "--message", message])` run visibly (main.rs
lines 85-89). -/
def commitInv (message : String) : Invocation :=
  visibleInv gitProg [.text "commit", .text "--message", .text message]

/-- `Command::new(shell).arg("-i").arg("-c").arg(arg)` run visibly (main.rs
lines 52-54). -/
def shellInv (shell : OsStr) (arg : String) : Invocation :=
  visibleInv shell [.text "-i", .text "-c", .text arg]

/-- `Command::new(first).args(rest)` run visibly (main.rs line 64). -/
def directInv (first : String) (rest : List String) : Invocation :=
  visibleInv (.text first) (rest.map .text)

/-- `errexit(run(..))` (main.rs lines 96-120): attempt to launch `inv` as
the `idx`-th subprocess of the run.  A launch failure becomes an error
naming the program and arguments; exit code 0 yields the captured standard
output; a nonzero exit code becomes an error naming the program, arguments
and the code; an absent exit code becomes an error naming the program and
arguments and reporting that there is no status. -/
def runErrexit (spawn : Nat → SpawnOutcome) (idx : Nat) (inv : Invocation) :
    Except RunError (List Nat) :=
  match spawn idx with
  | .launchFailure => .error (.subprocessLaunch inv.program inv.args)
  | .exited (some c) out =>
      if c = 0 then .ok out
      else .error (.subprocessExit inv.program inv.args (some c))
  | .exited none _ => .error (.subprocessExit inv.program inv.args none)

/-- Main.rs lines 45-51: resolve the shell program from the `SHELL`
environment variable.  Valid text is used as the program, a non-unicode
value is still accepted as the raw value, absence is a hard error. -/
def resolveShell : EnvVar → Except RunError OsStr
  | .ok s => .ok (.text s)
  | .notUnicode v => .ok v
  | .notPresent => .error .missingEnvironment

/-- `interact().unwrap_or(false)` (main.rs line 82): the answer of the
confirmation capability, any failure of the capability counting as "no". -/
def confirmAnswer : ConfirmOutcome → Bool
  | .ok b => b
  | .failure => false

/-- Main.rs lines 70-93, the tail of `main` after the user command ran:
stage everything (subprocess 2), show colorized status (subprocess 3),
resolve permission (`args.yes || interact().unwrap_or(false)`, the prompt
consulted only when `--yes` is absent), then either commit (subprocess 4)
or bail with `cancelled`.  `trace` is the list of invocations already
attempted. -/
def commitSequencer (args : Args) (env : Env) (trace : List Invocation)
    (message : String) : RunResult :=
  match runErrexit env.spawn 2 addAllInv with
  | .error e => ⟨.failure e, trace ++ [addAllInv], false⟩
  | .ok _ =>
    match runErrexit env.spawn 3 colorStatusInv with
    | .error e => ⟨.failure e, trace ++ [addAllInv, colorStatusInv], false⟩
    | .ok _ =>
      if args.yes || confirmAnswer env.confirm then
        match runErrexit env.spawn 4 (commitInv message) with
        | .error e =>
            ⟨.failure e, trace ++ [addAllInv, colorStatusInv, commitInv message],
              !args.yes⟩
        | .ok _ =>
            ⟨.success, trace ++ [addAllInv, colorStatusInv, commitInv message],
              !args.yes⟩
      else
        ⟨.failure .cancelled, trace ++ [addAllInv, colorStatusInv], !args.yes⟩

/-- `main` (main.rs lines 30-94).  First the porcelain status query
(subprocess 0); a non-empty captured output is the dirty-repository bail.
Then the match on `(args.shell, args.command)`: shell mode with one token
resolves `SHELL` and runs the shell (subprocess 1) with `-i -c <token>`,
shell mode with any other token count exits through the clap usage-error
path, direct mode runs the first token as the program with the rest as
arguments (subprocess 1), and direct mode with an empty command is the
`unreachable!` panic.  The surviving branches continue with the commit
sequencer and the derived message. -/
def gitRun (args : Args) (env : Env) : RunResult :=
  match runErrexit env.spawn 0 statusPorcelainInv with
  | .error e => ⟨.failure e, [statusPorcelainInv], false⟩
  | .ok statusOut =>
    if statusOut.isEmpty then
      match args.shell, args.command with
      | true, [arg] =>
        match resolveShell env.shellVar with
        | .error e => ⟨.failure e, [statusPorcelainInv], false⟩
        | .ok sh =>
          match runErrexit env.spawn 1 (shellInv sh arg) with
          | .error e => ⟨.failure e, [statusPorcelainInv, shellInv sh arg], false⟩
          | .ok _ =>
              commitSequencer args env [statusPorcelainInv, shellInv sh arg]
                ("run: " ++ arg)
      | true, _ => ⟨.usageExit, [statusPorcelainInv], false⟩
      | false, first :: rest =>
        match runErrexit env.spawn 1 (directInv first rest) with
        | .error e =>
            ⟨.failure e, [statusPorcelainInv, directInv first rest], false⟩
        | .ok _ =>
            commitSequencer args env [statusPorcelainInv, directInv first rest]
              ("run: " ++ String.intercalate " " args.command)
      | false, [] => ⟨.panicked, [statusPorcelainInv], false⟩
    else ⟨.failure .dirtyRepository, [statusPorcelainInv], false⟩

/-- The four arms of the match on `(args.shell, args.command)` in main.rs
lines 43-68. -/
inductive MainArm where
  | shellExec
  | usageError
  | directExec
  | panicArm
deriving DecidableEq

/-- Which arm of the match on `(args.shell, args.command)` (main.rs lines
43-68) applies, in the source's pattern order. -/
def mainArm (shell : Bool) (command : List String) : MainArm :=
  match shell, command with
  | true, [_] => .shellExec
  | true, _ => .usageError
  | false, _ :: _ => .directExec
  | false, [] => .panicArm

/-- A spawn oracle where every subprocess launch succeeds with exit code 0
and empty captured output. -/
def okSpawn : Nat → SpawnOutcome := fun _ => .exited (some 0) []

/-- A world where everything succeeds: `SHELL` set to text, every spawn
exits 0 with empty output, and the prompt answers yes. -/
def envAllOk : Env := ⟨.ok "/bin/sh", okSpawn, .ok true⟩

/-- A world identical to `envAllOk` except `SHELL` is unset. -/
def envShellUnset : Env := ⟨.notPresent, okSpawn, .ok true⟩

/-- A world where the porcelain status query succeeds but returns one byte
of output: a dirty repository. -/
def envDirty : Env := ⟨.ok "/bin/sh", fun _ => .exited (some 0) [77], .ok true⟩

/-- A world where the prompt answers no. -/
def envDecline : Env := ⟨.ok "/bin/sh", okSpawn, .ok false⟩

/-- A world where the status query succeeds empty and every later subprocess
exits with status 2. -/
def envExit2 : Env :=
  ⟨.ok "/bin/sh", fun i => if i = 0 then .exited (some 0) [] else .exited (some 2) [], .ok true⟩

/-- The commit sequencer only ever appends invocations to the trace it is
given. -/
theorem commitSequencer_trace_prefix (args : Args) (env : Env)
    (trace : List Invocation) (message : String) :
    ∃ s, (commitSequencer args env trace message).trace = trace ++ s := by
  rcases h2 : runErrexit env.spawn 2 addAllInv with e | o2
  · exact ⟨[addAllInv], by simp [commitSequencer, h2]⟩
  rcases h3 : runErrexit env.spawn 3 colorStatusInv with e | o3
  · exact ⟨[addAllInv, colorStatusInv], by simp [commitSequencer, h2, h3]⟩
  by_cases hp : (args.yes || confirmAnswer env.confirm) = true
  · rcases h4 : runErrexit env.spawn 4 (commitInv message) with e | o4
    · exact ⟨[addAllInv, colorStatusInv, commitInv message],
        by simp [commitSequencer, h2, h3, hp, h4]⟩
    · exact ⟨[addAllInv, colorStatusInv, commitInv message],
        by simp [commitSequencer, h2, h3, hp, h4]⟩
  · exact ⟨[addAllInv, colorStatusInv], by simp [commitSequencer, h2, h3, hp]⟩

/-- The commit sequencer never ends in the panic outcome. -/
theorem commitSequencer_not_panicked (args : Args) (env : Env)
    (trace : List Invocation) (message : String) :
    (commitSequencer args env trace message).outcome ≠ .panicked := by
  rcases h2 : runErrexit env.spawn 2 addAllInv with e | o2
  · simp [commitSequencer, h2]
  rcases h3 : runErrexit env.spawn 3 colorStatusInv with e | o3
  · simp [commitSequencer, h2, h3]
  by_cases hp : (args.yes || confirmAnswer env.confirm) = true
  · rcases h4 : runErrexit env.spawn 4 (commitInv message) with e | o4 <;>
      simp [commitSequencer, h2, h3, hp, h4]
  · simp [commitSequencer, h2, h3, hp]

/-- A successful commit sequencer appended exactly the staging, status and
commit invocations, the commit carrying the given message. -/
theorem commitSequencer_success_trace (args : Args) (env : Env)
    (trace : List Invocation) (message : String)
    (h : (commitSequencer args env trace message).outcome = .success) :
    (commitSequencer args env trace message).trace =
      trace ++ [addAllInv, colorStatusInv, commitInv message] := by
  rcases h2 : runErrexit env.spawn 2 addAllInv with e | o2
  · simp [commitSequencer, h2] at h
  rcases h3 : runErrexit env.spawn 3 colorStatusInv with e | o3
  · simp [commitSequencer, h2, h3] at h
  by_cases hp : (args.yes || confirmAnswer env.confirm) = true
  · rcases h4 : runErrexit env.spawn 4 (commitInv message) with e | o4
    · simp [commitSequencer, h2, h3, hp, h4] at h
    · simp [commitSequencer, h2, h3, hp, h4]
  · simp [commitSequencer, h2, h3, hp] at h

/-- When `--yes` is set the commit sequencer never consults the prompt. -/
theorem commitSequencer_prompt_of_yes (args : Args) (env : Env)
    (trace : List Invocation) (message : String) (ha : args.yes = true) :
    (commitSequencer args env trace message).promptInvoked = false := by
  rcases h2 : runErrexit env.spawn 2 addAllInv with e | o2
  · simp [commitSequencer, h2]
  rcases h3 : runErrexit env.spawn 3 colorStatusInv with e | o3
  · simp [commitSequencer, h2, h3]
  rcases h4 : runErrexit env.spawn 4 (commitInv message) with e | o4 <;>
    simp [commitSequencer, h2, h3, h4, ha]

/-- Claim C1: whenever the porcelain status query succeeds with non-empty
standard output the run ends with the dirty-repository error, having
attempted no subprocess other than the status query itself and never having
consulted the confirmation prompt. -/
theorem c1_dirty_repository_stops_run (args : Args) (env : Env) (out : List Nat)
    (h0 : env.spawn 0 = .exited (some 0) out) (hne : out ≠ []) :
    gitRun args env = ⟨.failure .dirtyRepository, [statusPorcelainInv], false⟩ := by
  simp [gitRun, runErrexit, h0, hne]

/-- Witness for C1 at a concrete dirty world. -/
theorem c1_dirty_repository_stops_run_witness :
    gitRun ⟨false, false, ["touch", "x"]⟩ envDirty =
      ⟨.failure .dirtyRepository, [statusPorcelainInv], false⟩ :=
  c1_dirty_repository_stops_run ⟨false, false, ["touch", "x"]⟩ envDirty [77]
    rfl (by decide)

/-- Counterexample to claim C7 as stated: with `--shell` and two command
tokens, against a world where the status query succeeds with empty output,
the run does exit through the usage-error path, but only after one
subprocess (the porcelain status query) has already been launched, so the
exit does not happen before any subprocess is launched. -/
theorem c7_counterexample :
    (gitRun ⟨true, false, ["a", "b"]⟩ envAllOk).outcome = .usageExit ∧
    (gitRun ⟨true, false, ["a", "b"]⟩ envAllOk).trace = [statusPorcelainInv] ∧
    [statusPorcelainInv] ≠ ([] : List Invocation) := by
  decide

/-- Claim C7 (amended): with `--shell` and more than one positional command
token, once the porcelain status query has succeeded with empty output the
run exits through the usage-error path, and no subprocess beyond that
initial status query is ever launched. -/
theorem c7_usage_error_after_status_only (yes : Bool) (c1 c2 : String)
    (cs : List String) (env : Env)
    (h0 : env.spawn 0 = .exited (some 0) []) :
    gitRun ⟨true, yes, c1 :: c2 :: cs⟩ env =
      ⟨.usageExit, [statusPorcelainInv], false⟩ := by
  simp [gitRun, runErrexit, h0]

/-- Witness for the amended C7 at a concrete input. -/
theorem c7_usage_error_after_status_only_witness :
    gitRun ⟨true, false, ["a", "b"]⟩ envAllOk =
      ⟨.usageExit, [statusPorcelainInv], false⟩ :=
  c7_usage_error_after_status_only false "a" "b" [] envAllOk rfl

/-- Counterexample to claim C8 as stated: with `--shell`, one command token
and `SHELL` unset, against a world where the status query succeeds with
empty output, the run does fail with the missing-environment error, but one
subprocess (the porcelain status query) was already launched before that
failure, so the failure does not happen before any subprocess is
launched. -/
theorem c8_counterexample :
    (gitRun ⟨true, false, ["x"]⟩ envShellUnset).outcome =
      .failure .missingEnvironment ∧
    (gitRun ⟨true, false, ["x"]⟩ envShellUnset).trace = [statusPorcelainInv] ∧
    [statusPorcelainInv] ≠ ([] : List Invocation) := by
  decide

/-- Claim C8 (amended): with `--shell`, one command token and `SHELL` unset,
once the porcelain status query has succeeded with empty output the run
fails with the missing-environment error, and no subprocess beyond that
initial status query is ever launched. -/
theorem c8_missing_shell_after_status_only (yes : Bool) (c : String)
    (env : Env) (h0 : env.spawn 0 = .exited (some 0) [])
    (hsh : env.shellVar = .notPresent) :
    gitRun ⟨true, yes, [c]⟩ env =
      ⟨.failure .missingEnvironment, [statusPorcelainInv], false⟩ := by
  simp [gitRun, runErrexit, resolveShell, h0, hsh]

/-- Witness for the amended C8 at a concrete input. -/
theorem c8_missing_shell_after_status_only_witness :
    gitRun ⟨true, false, ["x"]⟩ envShellUnset =
      ⟨.failure .missingEnvironment, [statusPorcelainInv], false⟩ :=
  c8_missing_shell_after_status_only false "x" envShellUnset rfl rfl

/-- A world whose `SHELL` variable is present but not valid unicode. -/
def envShellBytes : Env := ⟨.notUnicode (.bytes [255, 0]), okSpawn, .ok true⟩

/-- Claim C9: the `SHELL` lookup distinguishes three outcomes.  Valid text
is used as the shell program, a present-but-non-unicode value is still
accepted and used verbatim as the shell program (the run proceeds to invoke
it, as the trace shows), and only total absence is the hard
missing-environment error; the unset and non-unicode cases are never
conflated. -/
theorem c9_shell_lookup_tristate (s : String) (v : OsStr) (yes : Bool)
    (c : String) (env : Env)
    (h0 : env.spawn 0 = .exited (some 0) [])
    (hsh : env.shellVar = .notUnicode v) :
    resolveShell (.ok s) = .ok (.text s) ∧
    resolveShell (.notUnicode v) = .ok v ∧
    resolveShell .notPresent = .error .missingEnvironment ∧
    resolveShell (.notUnicode v) ≠ resolveShell .notPresent ∧
    (∃ rest, (gitRun ⟨true, yes, [c]⟩ env).trace =
      statusPorcelainInv :: shellInv v c :: rest) := by
  refine ⟨rfl, rfl, rfl, by simp [resolveShell], ?_⟩
  have hq : runErrexit env.spawn 0 statusPorcelainInv = .ok [] := by
    simp [runErrexit, h0]
  rcases h1 : runErrexit env.spawn 1 (shellInv v c) with e | o1
  · exact ⟨[], by simp [gitRun, resolveShell, hq, hsh, h1]⟩
  · obtain ⟨suffix, hsuf⟩ := commitSequencer_trace_prefix ⟨true, yes, [c]⟩ env
      [statusPorcelainInv, shellInv v c] ("run: " ++ c)
    exact ⟨suffix, by simp [gitRun, resolveShell, hq, hsh, h1, hsuf]⟩

/-- Witness for C9 at a concrete world whose `SHELL` holds non-unicode
bytes. -/
theorem c9_shell_lookup_tristate_witness :
    resolveShell (.ok "sh") = .ok (.text "sh") ∧
    resolveShell (.notUnicode (.bytes [255, 0])) = .ok (.bytes [255, 0]) ∧
    resolveShell .notPresent = .error .missingEnvironment ∧
    resolveShell (.notUnicode (.bytes [255, 0])) ≠ resolveShell .notPresent ∧
    (∃ rest, (gitRun ⟨true, true, ["x"]⟩ envShellBytes).trace =
      statusPorcelainInv :: shellInv (.bytes [255, 0]) "x" :: rest) :=
  c9_shell_lookup_tristate "sh" (.bytes [255, 0]) true "x" envShellBytes rfl rfl

/-- Counterexample to claim C10 as stated: the command list `["a", "b"]` is
non-empty, yet with the shell flag set neither of the two executing arms of
the match is taken (the usage-error arm is), so it is not the case that
every non-empty command list takes exactly one of the shell and direct
arms; concretely the run launches nothing beyond the status query. -/
theorem c10_counterexample :
    mainArm true ["a", "b"] ≠ .shellExec ∧
    mainArm true ["a", "b"] ≠ .directExec ∧
    (gitRun ⟨true, false, ["a", "b"]⟩ envAllOk).trace = [statusPorcelainInv] := by
  decide

/-- Claim C10 (amended): under the argument-grammar precondition that the
command list is non-empty, the panicking arm of the match in `main` is
unreachable — a run never ends in the panic outcome — and exactly one of
the three remaining arms applies: the shell-executing arm exactly when the
shell flag is set with a single token, the usage-error arm exactly when the
shell flag is set with several tokens, and the direct-executing arm exactly
when the shell flag is absent. -/
theorem c10_match_total (shell yes : Bool) (command : List String) (env : Env)
    (h : command ≠ []) :
    mainArm shell command ≠ .panicArm ∧
    (gitRun ⟨shell, yes, command⟩ env).outcome ≠ .panicked ∧
    (mainArm shell command = .shellExec ↔ shell = true ∧ command.length = 1) ∧
    (mainArm shell command = .usageError ↔ shell = true ∧ 1 < command.length) ∧
    (mainArm shell command = .directExec ↔ shell = false) := by
  obtain ⟨c, cs, rfl⟩ := List.exists_cons_of_ne_nil h
  have harm : mainArm shell (c :: cs) ≠ .panicArm ∧
      (mainArm shell (c :: cs) = .shellExec ↔ shell = true ∧ (c :: cs).length = 1) ∧
      (mainArm shell (c :: cs) = .usageError ↔ shell = true ∧ 1 < (c :: cs).length) ∧
      (mainArm shell (c :: cs) = .directExec ↔ shell = false) := by
    cases shell <;> cases cs <;> simp [mainArm, Nat.succ_lt_succ_iff]
  refine ⟨harm.1, ?_, harm.2⟩
  rcases hq : runErrexit env.spawn 0 statusPorcelainInv with e | out0
  · simp [gitRun, hq]
  by_cases hemp : out0.isEmpty
  · cases shell
    · rcases h1 : runErrexit env.spawn 1 (directInv c cs) with e | o1
      · simp [gitRun, hq, hemp, h1]
      · simp only [gitRun, hq, hemp, h1]
        exact commitSequencer_not_panicked _ _ _ _
    · rcases cs with _ | ⟨c2, cs⟩
      · rcases hsh : resolveShell env.shellVar with e | sh
        · simp [gitRun, hq, hemp, hsh]
        · rcases h1 : runErrexit env.spawn 1 (shellInv sh c) with e | o1
          · simp [gitRun, hq, hemp, hsh, h1]
          · simp only [gitRun, hq, hemp, hsh, h1]
            exact commitSequencer_not_panicked _ _ _ _
      · simp [gitRun, hq, hemp]
  · simp [gitRun, hq, hemp]

/-- Witness for the amended C10 at a concrete input. -/
theorem c10_match_total_witness :
    mainArm true ["a", "b"] ≠ .panicArm ∧
    (gitRun ⟨true, false, ["a", "b"]⟩ envAllOk).outcome ≠ .panicked ∧
    (mainArm true ["a", "b"] = .shellExec ↔ true = true ∧ (["a", "b"] : List String).length = 1) ∧
    (mainArm true ["a", "b"] = .usageError ↔ true = true ∧ 1 < (["a", "b"] : List String).length) ∧
    (mainArm true ["a", "b"] = .directExec ↔ true = false) :=
  c10_match_total true false ["a", "b"] envAllOk (by decide)

/-- Claim C2: in every run without `--shell` that ends in success, the
commit step was invoked with the message `"run: "` followed by the command
tokens joined by single spaces in their original order (and the whole
subprocess sequence was the status query, the direct command, staging,
status display and the commit). -/
theorem c2_direct_commit_message (yes : Bool) (first : String)
    (rest : List String) (env : Env)
    (h : (gitRun ⟨false, yes, first :: rest⟩ env).outcome = .success) :
    (gitRun ⟨false, yes, first :: rest⟩ env).trace =
      [statusPorcelainInv, directInv first rest, addAllInv, colorStatusInv,
        commitInv ("run: " ++ String.intercalate " " (first :: rest))] := by
  rcases hq : runErrexit env.spawn 0 statusPorcelainInv with e | out0
  · simp [gitRun, hq] at h
  by_cases hemp : out0.isEmpty
  · rcases h1 : runErrexit env.spawn 1 (directInv first rest) with e | o1
    · simp [gitRun, hq, hemp, h1] at h
    · simp only [gitRun, hq, hemp, h1, if_true] at h ⊢
      rw [commitSequencer_success_trace _ _ _ _ h]
      rfl
  · simp [gitRun, hq, hemp] at h

/-- Witness for C2 at a concrete successful run. -/
theorem c2_direct_commit_message_witness :
    (gitRun ⟨false, true, ["echo", "hi"]⟩ envAllOk).trace =
      [statusPorcelainInv, directInv "echo" ["hi"], addAllInv, colorStatusInv,
        commitInv "run: echo hi"] :=
  c2_direct_commit_message true "echo" ["hi"] envAllOk (by decide)

/-- Claim C3: in every run with `--shell` and exactly one command token that
ends in success, the commit step was invoked with the message `"run: "`
followed by the raw token, and the resolved shell was invoked with the
arguments `-i`, `-c` and the token, in that order. -/
theorem c3_shell_commit_message (yes : Bool) (c : String) (sh : OsStr)
    (env : Env) (hsh : resolveShell env.shellVar = .ok sh)
    (h : (gitRun ⟨true, yes, [c]⟩ env).outcome = .success) :
    (gitRun ⟨true, yes, [c]⟩ env).trace =
      [statusPorcelainInv, shellInv sh c, addAllInv, colorStatusInv,
        commitInv ("run: " ++ c)] ∧
    (shellInv sh c).program = sh ∧
    (shellInv sh c).args = [.text "-i", .text "-c", .text c] := by
  refine ⟨?_, rfl, rfl⟩
  rcases hq : runErrexit env.spawn 0 statusPorcelainInv with e | out0
  · simp [gitRun, hq] at h
  by_cases hemp : out0.isEmpty
  · rcases h1 : runErrexit env.spawn 1 (shellInv sh c) with e | o1
    · simp [gitRun, hq, hemp, hsh, h1] at h
    · simp only [gitRun, hq, hemp, hsh, h1, if_true] at h ⊢
      rw [commitSequencer_success_trace _ _ _ _ h]
      rfl
  · simp [gitRun, hq, hemp] at h

/-- Witness for C3 at a concrete successful run. -/
theorem c3_shell_commit_message_witness :
    (gitRun ⟨true, true, ["make test"]⟩ envAllOk).trace =
      [statusPorcelainInv, shellInv (.text "/bin/sh") "make test", addAllInv,
        colorStatusInv, commitInv "run: make test"] ∧
    (shellInv (.text "/bin/sh") "make test").program = .text "/bin/sh" ∧
    (shellInv (.text "/bin/sh") "make test").args =
      [.text "-i", .text "-c", .text "make test"] :=
  c3_shell_commit_message true "make test" (.text "/bin/sh") envAllOk rfl (by decide)

/-- Claim C4: when confirmation is required (`--yes` absent) and the prompt
answers no — or the prompt capability itself fails — the run ends with the
cancelled error after exactly the status query, the user command, the
staging step and the status display: the commit subprocess is never
launched, and nothing after the staging step undoes it.  Stated for the
direct mode and, under a resolved shell, for the shell mode. -/
theorem c4_cancelled_keeps_staging (first c : String) (rest : List String)
    (sh : OsStr) (env : Env) (o1 o2 o3 : List Nat)
    (hc : env.confirm = .ok false ∨ env.confirm = .failure)
    (h0 : env.spawn 0 = .exited (some 0) [])
    (h1 : env.spawn 1 = .exited (some 0) o1)
    (h2 : env.spawn 2 = .exited (some 0) o2)
    (h3 : env.spawn 3 = .exited (some 0) o3) :
    gitRun ⟨false, false, first :: rest⟩ env =
      ⟨.failure .cancelled,
        [statusPorcelainInv, directInv first rest, addAllInv, colorStatusInv],
        true⟩ ∧
    (resolveShell env.shellVar = .ok sh →
      gitRun ⟨true, false, [c]⟩ env =
        ⟨.failure .cancelled,
          [statusPorcelainInv, shellInv sh c, addAllInv, colorStatusInv],
          true⟩) := by
  have ha : confirmAnswer env.confirm = false := by
    rcases hc with hc | hc <;> simp [confirmAnswer, hc]
  constructor
  · simp [gitRun, commitSequencer, runErrexit, h0, h1, h2, h3, ha]
  · intro hsh
    simp [gitRun, commitSequencer, runErrexit, h0, h1, h2, h3, ha, hsh]

/-- Witness for C4 at a concrete declining world. -/
theorem c4_cancelled_keeps_staging_witness :
    gitRun ⟨false, false, ["touch", "x"]⟩ envDecline =
      ⟨.failure .cancelled,
        [statusPorcelainInv, directInv "touch" ["x"], addAllInv, colorStatusInv],
        true⟩ ∧
    (resolveShell envDecline.shellVar = .ok (.text "/bin/sh") →
      gitRun ⟨true, false, ["x"]⟩ envDecline =
        ⟨.failure .cancelled,
          [statusPorcelainInv, shellInv (.text "/bin/sh") "x", addAllInv,
            colorStatusInv], true⟩) :=
  c4_cancelled_keeps_staging "touch" "x" ["x"] (.text "/bin/sh") envDecline
    [] [] [] (Or.inl rfl) rfl rfl rfl rfl

/-- Claim C5: with `--yes` set the confirmation capability is never
consulted, in any world whatsoever; and in any world where the status
query, the user command, the staging step and the status display all
succeed, the commit step is invoked unconditionally (its invocation is in
the trace whatever the commit subprocess or the prompt would do), in both
the direct and — under a resolved shell — the shell mode. -/
theorem c5_yes_skips_prompt_commits (args : Args) (env : Env)
    (first c : String) (rest : List String) (sh : OsStr) (env2 : Env)
    (o1 o2 o3 : List Nat)
    (ha : args.yes = true)
    (h0 : env2.spawn 0 = .exited (some 0) [])
    (h1 : env2.spawn 1 = .exited (some 0) o1)
    (h2 : env2.spawn 2 = .exited (some 0) o2)
    (h3 : env2.spawn 3 = .exited (some 0) o3) :
    (gitRun args env).promptInvoked = false ∧
    (gitRun ⟨false, true, first :: rest⟩ env2).trace =
      [statusPorcelainInv, directInv first rest, addAllInv, colorStatusInv,
        commitInv ("run: " ++ String.intercalate " " (first :: rest))] ∧
    (resolveShell env2.shellVar = .ok sh →
      (gitRun ⟨true, true, [c]⟩ env2).trace =
        [statusPorcelainInv, shellInv sh c, addAllInv, colorStatusInv,
          commitInv ("run: " ++ c)]) := by
  refine ⟨?_, ?_, ?_⟩
  · rcases hq : runErrexit env.spawn 0 statusPorcelainInv with e | out0
    · simp [gitRun, hq]
    by_cases hemp : out0.isEmpty
    · rcases args with ⟨shFlag, y, cmd⟩
      simp only at ha
      subst ha
      cases shFlag
      · rcases cmd with _ | ⟨f, r⟩
        · simp [gitRun, hq, hemp]
        · rcases h1' : runErrexit env.spawn 1 (directInv f r) with e | o1'
          · simp [gitRun, hq, hemp, h1']
          · simp only [gitRun, hq, hemp, h1', if_true]
            exact commitSequencer_prompt_of_yes _ _ _ _ rfl
      · rcases cmd with _ | ⟨f, r⟩
        · simp [gitRun, hq, hemp]
        · rcases r with _ | ⟨g, r⟩
          · rcases hsh' : resolveShell env.shellVar with e | sh'
            · simp [gitRun, hq, hemp, hsh']
            · rcases h1' : runErrexit env.spawn 1 (shellInv sh' f) with e | o1'
              · simp [gitRun, hq, hemp, hsh', h1']
              · simp only [gitRun, hq, hemp, hsh', h1', if_true]
                exact commitSequencer_prompt_of_yes _ _ _ _ rfl
          · simp [gitRun, hq, hemp]
    · simp [gitRun, hq, hemp]
  · rcases h4 : env2.spawn 4 with _ | ⟨c4, o4⟩
    · simp [gitRun, commitSequencer, runErrexit, h0, h1, h2, h3, h4]
    · rcases c4 with _ | c4
      · simp [gitRun, commitSequencer, runErrexit, h0, h1, h2, h3, h4]
      · by_cases hc4 : c4 = 0 <;>
          simp [gitRun, commitSequencer, runErrexit, h0, h1, h2, h3, h4, hc4]
  · intro hsh
    rcases h4 : env2.spawn 4 with _ | ⟨c4, o4⟩
    · simp [gitRun, commitSequencer, runErrexit, h0, h1, h2, h3, h4, hsh]
    · rcases c4 with _ | c4
      · simp [gitRun, commitSequencer, runErrexit, h0, h1, h2, h3, h4, hsh]
      · by_cases hc4 : c4 = 0 <;>
          simp [gitRun, commitSequencer, runErrexit, h0, h1, h2, h3, h4, hsh, hc4]

/-- Witness for C5 at concrete worlds. -/
theorem c5_yes_skips_prompt_commits_witness :
    (gitRun ⟨false, true, ["ls"]⟩ envAllOk).promptInvoked = false ∧
    (gitRun ⟨false, true, ["echo", "hi"]⟩ envAllOk).trace =
      [statusPorcelainInv, directInv "echo" ["hi"], addAllInv, colorStatusInv,
        commitInv "run: echo hi"] ∧
    (resolveShell envAllOk.shellVar = .ok (.text "/bin/sh") →
      (gitRun ⟨true, true, ["x"]⟩ envAllOk).trace =
        [statusPorcelainInv, shellInv (.text "/bin/sh") "x", addAllInv,
          colorStatusInv, commitInv "run: x"]) :=
  c5_yes_skips_prompt_commits ⟨false, true, ["ls"]⟩ envAllOk "echo" "x" ["hi"]
    (.text "/bin/sh") envAllOk [] [] [] rfl rfl rfl rfl rfl

/-- Claim C6: subprocess failure is reported in exactly the tiers of `run`
and `errexit` — a launch failure yields the error naming the program and
arguments attempted; a non-zero exit status `n` yields the error naming
program, arguments and `n`; termination without a status yields the error
naming program and arguments with no status — and, end to end, a user
command exiting with status 2 ends the run with the exit error naming that
program, its arguments and 2, with neither the staging nor the commit
subprocess ever launched. -/
theorem c6_two_tier_subprocess_errors (spawn : Nat → SpawnOutcome) (idx : Nat)
    (inv : Invocation) (yes : Bool) (first : String) (rest : List String)
    (env : Env) (o1 : List Nat)
    (h0 : env.spawn 0 = .exited (some 0) [])
    (h1 : env.spawn 1 = .exited (some 2) o1) :
    (spawn idx = .launchFailure →
      runErrexit spawn idx inv = .error (.subprocessLaunch inv.program inv.args)) ∧
    (∀ n out, n ≠ 0 → spawn idx = .exited (some n) out →
      runErrexit spawn idx inv =
        .error (.subprocessExit inv.program inv.args (some n))) ∧
    (∀ out, spawn idx = .exited none out →
      runErrexit spawn idx inv = .error (.subprocessExit inv.program inv.args none)) ∧
    gitRun ⟨false, yes, first :: rest⟩ env =
      ⟨.failure (.subprocessExit (.text first) (rest.map .text) (some 2)),
        [statusPorcelainInv, directInv first rest], false⟩ := by
  refine ⟨?_, ?_, ?_, ?_⟩
  · intro hl
    simp [runErrexit, hl]
  · intro n out hn hs
    simp [runErrexit, hs, hn]
  · intro out hs
    simp [runErrexit, hs]
  · simp [gitRun, runErrexit, h0, h1, directInv, visibleInv]

/-- Witness for C6 at a concrete world where the user command exits with
status 2. -/
theorem c6_two_tier_subprocess_errors_witness :
    ((fun _ => .launchFailure : Nat → SpawnOutcome) 0 = .launchFailure →
      runErrexit (fun _ => .launchFailure) 0 statusPorcelainInv =
        .error (.subprocessLaunch statusPorcelainInv.program statusPorcelainInv.args)) ∧
    (∀ n out, n ≠ 0 →
      (fun _ => .launchFailure : Nat → SpawnOutcome) 0 = .exited (some n) out →
      runErrexit (fun _ => .launchFailure) 0 statusPorcelainInv =
        .error (.subprocessExit statusPorcelainInv.program statusPorcelainInv.args (some n))) ∧
    (∀ out, (fun _ => .launchFailure : Nat → SpawnOutcome) 0 = .exited none out →
      runErrexit (fun _ => .launchFailure) 0 statusPorcelainInv =
        .error (.subprocessExit statusPorcelainInv.program statusPorcelainInv.args none)) ∧
    gitRun ⟨false, false, ["false"]⟩ envExit2 =
      ⟨.failure (.subprocessExit (.text "false") ([].map .text) (some 2)),
        [statusPorcelainInv, directInv "false" []], false⟩ :=
  c6_two_tier_subprocess_errors (fun _ => .launchFailure) 0 statusPorcelainInv
    false "false" [] envExit2 [] rfl rfl
